import Mathlib

/-!
Shallow embedding of `src/models/model_evaluation.py` from the
emotion-detection-dvc repository.

The program is a linear evaluation pipeline: load a pickled classifier,
load a test CSV, compute accuracy / precision / recall / AUC with
sklearn, log metrics and flattened hyperparameters to a dvclive tracking
session, and dump the metrics dict to `reports/metrics.json`.

Modelling choices:
- Python exceptions become an explicit `PyError` sum type; every function
  that can raise returns `Except PyError α` together with the updated
  `World`.
- The `World` carries the filesystem (association list from path to file
  data), the logger output (the process-wide `Model Evaluation` logger),
  and the trace of events sent to the dvclive tracking session.
- sklearn metric functions are modelled on lists of rational numbers,
  with the input-validation errors they raise (length mismatch, non-binary
  labels, single-class AUC) surfaced as `ValueError`.
- dvclive `log_metric` / `log_param` calls may raise; this is modelled by
  an oracle `ℕ → Option PyError` consulted at each successive logging
  call, so that the `with Live(...)` scope semantics can be stated for
  every possible failure of a logging call.
- `open(path, "w")` truncates the target file immediately; `json.dump`
  then either writes the serialization or raises `TypeError` on a
  non-serializable value, leaving the truncated file behind.
-/

set_option autoImplicit false

namespace ModelEval

/-- Severity levels actually used by the script (logger.debug / logger.error). -/
inductive LogLevel where
  | debug
  | error
  deriving DecidableEq, Repr

/-- One record emitted through the `Model Evaluation` logger. -/
structure LogEntry where
  level : LogLevel
  msg : String
  deriving DecidableEq, Repr

/-- Python exception classes that the script can raise or handle. -/
inductive PyError where
  | fileNotFound (path : String)
  | unpicklingError
  | yamlError
  | emptyDataError
  | parserError
  | attributeError (details : String)
  | valueError (details : String)
  | typeError (details : String)
  | ioError (details : String)
  | other (details : String)
  deriving DecidableEq, Repr

/-- Rendering of an exception used where Python interpolates `{e}`. -/
def pyErrMsg : PyError → String
  | .fileNotFound p => "FileNotFoundError: " ++ p
  | .unpicklingError => "UnpicklingError"
  | .yamlError => "YAMLError"
  | .emptyDataError => "EmptyDataError"
  | .parserError => "ParserError"
  | .attributeError d => d
  | .valueError d => d
  | .typeError d => d
  | .ioError d => d
  | .other d => d

/-- A value parsed from `params.yaml`: either a scalar hyperparameter or a
nested mapping (section of hyperparameters). -/
inductive YamlVal where
  | scalar (s : String)
  | dict (entries : List (String × YamlVal))

/-- Top-level parameters mapping: stage name to its value. -/
abbrev Params := List (String × YamlVal)

/-- A Python value placed into a dict that will be JSON-serialized.
`nonSerializable` stands for any object `json.dump` rejects with
`TypeError` (a set, a function, ...). -/
inductive PyVal where
  | num (q : ℚ)
  | str (s : String)
  | nonSerializable

/-- A feature row of the test table (the first M-1 columns of one CSV row). -/
abbrev Row := List ℚ

/-- The deserialized classifier artifact: an opaque object that may or may
not expose `predict` / `predict_proba`.  `predictFn` gives the hard label
for a row; `predictProbaFn` gives the two probability columns
`[negative, positive]` returned by a binary `predict_proba`. -/
structure SklearnModel where
  hasPredict : Bool
  hasPredictProba : Bool
  predictFn : Row → ℚ
  predictProbaFn : Row → ℚ × ℚ

/-- Contents of a file on disk, at the level of structure the script
distinguishes them. -/
inductive FileData where
  /-- a valid pickle of a classifier object -/
  | pickle (m : SklearnModel)
  /-- bytes that `pickle.load` rejects -/
  | notPickle
  /-- a YAML file parsing to a top-level mapping -/
  | yaml (p : Params)
  /-- bytes that `yaml.safe_load` rejects -/
  | badYaml
  /-- a CSV table: list of rows, each a list of numeric cells -/
  | csv (rows : List (List ℚ))
  /-- a zero-byte file, which `pd.read_csv` rejects with `EmptyDataError` -/
  | emptyCsv
  /-- bytes that the CSV parser rejects with `ParserError` -/
  | badCsv
  /-- plain text, e.g. a written JSON report -/
  | text (s : String)

/-- One event sent to the dvclive tracking session. -/
inductive TrackEvent where
  | openSession
  | logMetric (name : String) (value : ℚ)
  | logParam (name : String) (value : YamlVal)
  | closeSession

/-- Program state: filesystem, logger output, tracking-session trace. -/
structure World where
  fs : List (String × FileData)
  log : List LogEntry
  track : List TrackEvent

/-- Look a path up in the filesystem. -/
def fsLookup (w : World) (path : String) : Option FileData :=
  match w.fs.find? (fun p => p.1 = path) with
  | some p => some p.2
  | none => none

/-- Write (create or overwrite) a file. -/
def fsWrite (path : String) (d : FileData) (w : World) : World :=
  { w with fs := (path, d) :: w.fs.filter (fun p => ¬ (p.1 = path)) }

/-- Append a record to the logger output. -/
def pushLog (lvl : LogLevel) (m : String) (w : World) : World :=
  { w with log := w.log ++ [⟨lvl, m⟩] }

/-- Append an event to the tracking-session trace. -/
def pushTrack (ev : TrackEvent) (w : World) : World :=
  { w with track := w.track ++ [ev] }

/-! ## Models of the sklearn metric functions

Each returns `Except PyError ℚ`, raising the `ValueError`s sklearn's
input validation raises on the shapes/domains relevant to this script. -/

/-- Number of positions where the two label lists agree. -/
def countMatches (y t : List ℚ) : ℕ :=
  (y.zip t).countP (fun p => p.1 = p.2)

/-- `sklearn.metrics.accuracy_score y t`: fraction of agreeing positions;
raises `ValueError` when the sample counts differ. -/
def accuracy_score (y t : List ℚ) : Except PyError ℚ :=
  if y.length = t.length then
    .ok ((countMatches y t : ℚ) / (y.length : ℚ))
  else
    .error (.valueError "Found input variables with inconsistent numbers of samples")

/-- All labels among both lists are 0 or 1 (the binary target check of
`precision_score` / `recall_score` with the default pos_label = 1). -/
def binaryLabels (y t : List ℚ) : Prop :=
  (∀ v ∈ y, v = 0 ∨ v = 1) ∧ (∀ v ∈ t, v = 0 ∨ v = 1)

instance (y t : List ℚ) : Decidable (binaryLabels y t) := by
  unfold binaryLabels; infer_instance

/-- True positives: positions with label 1 predicted 1. -/
def truePos (y t : List ℚ) : ℕ :=
  (y.zip t).countP (fun p => p.1 = 1 ∧ p.2 = 1)

/-- False positives: positions with label 0 predicted 1. -/
def falsePos (y t : List ℚ) : ℕ :=
  (y.zip t).countP (fun p => p.1 = 0 ∧ p.2 = 1)

/-- False negatives: positions with label 1 predicted 0. -/
def falseNeg (y t : List ℚ) : ℕ :=
  (y.zip t).countP (fun p => p.1 = 1 ∧ p.2 = 0)

/-- `sklearn.metrics.precision_score y t` (binary average, pos_label 1):
tp / (tp + fp), 0 when nothing is predicted positive (sklearn returns 0.0
under the default zero_division behavior); raises `ValueError` on sample
count mismatch or non-binary targets. -/
def precision_score (y t : List ℚ) : Except PyError ℚ :=
  if y.length = t.length then
    if binaryLabels y t then
      .ok ((truePos y t : ℚ) / ((truePos y t + falsePos y t : ℕ) : ℚ))
    else
      .error (.valueError "Target is multiclass but average is binary")
  else
    .error (.valueError "Found input variables with inconsistent numbers of samples")

/-- `sklearn.metrics.recall_score y t` (binary average, pos_label 1):
tp / (tp + fn); same validation as `precision_score`. -/
def recall_score (y t : List ℚ) : Except PyError ℚ :=
  if y.length = t.length then
    if binaryLabels y t then
      .ok ((truePos y t : ℚ) / ((truePos y t + falseNeg y t : ℕ) : ℚ))
    else
      .error (.valueError "Target is multiclass but average is binary")
  else
    .error (.valueError "Found input variables with inconsistent numbers of samples")

/-- Contribution of one (positive score, negative score) pair to the
Mann-Whitney statistic: 1 if ranked correctly, 1/2 on a tie, 0 otherwise. -/
def pairScore (p n : ℚ) : ℚ :=
  if n < p then 1 else if p = n then 1/2 else 0

/-- Scores attached to positions whose label equals `lbl`. -/
def scoresOf (lbl : ℚ) (y s : List ℚ) : List ℚ :=
  (y.zip s).filterMap (fun p => if p.1 = lbl then some p.2 else none)

/-- `sklearn.metrics.roc_auc_score y s`: the Mann-Whitney form of AUC-ROC;
raises `ValueError` on sample count mismatch, on labels outside 0/1, and
when only one class is present in `y`. -/
def roc_auc_score (y s : List ℚ) : Except PyError ℚ :=
  if y.length = s.length then
    if ∀ v ∈ y, v = 0 ∨ v = 1 then
      if (1 : ℚ) ∈ y ∧ (0 : ℚ) ∈ y then
        let pos := scoresOf 1 y s
        let neg := scoresOf 0 y s
        .ok (((pos.map (fun p => (neg.map (fun n => pairScore p n)).sum)).sum) /
             ((pos.length * neg.length : ℕ) : ℚ))
      else
        .error (.valueError "Only one class present in y_true")
    else
      .error (.valueError "continuous format is not supported")
  else
    .error (.valueError "Found input variables with inconsistent numbers of samples")

/-! ## The script's own functions -/

/-- `load_params(url)`: read and parse the YAML parameters file; on
failure, log at error severity and re-raise.  Reading bytes that are not
valid YAML for a mapping is surfaced through the `yaml.YAMLError` branch. -/
def load_params (url : String) (w : World) : Except PyError Params × World :=
  match fsLookup w url with
  | none =>
      (.error (.fileNotFound url),
       pushLog .error (s!"Error: The file {url} was not found.") w)
  | some (.yaml p) => (.ok p, w)
  | some _ =>
      (.error .yamlError,
       pushLog .error "Error parsing YAML file: YAMLError" w)

/-- `load_model(url)`: read and unpickle the classifier artifact; on
failure, log at error severity and re-raise. -/
def load_model (url : String) (w : World) : Except PyError SklearnModel × World :=
  match fsLookup w url with
  | none =>
      (.error (.fileNotFound url),
       pushLog .error (s!"Error: The file {url} was not found.") w)
  | some (.pickle m) => (.ok m, w)
  | some _ =>
      (.error .unpicklingError,
       pushLog .error "Error: The file could not be unpickled. It may not be a valid pickle file." w)

/-- `load_data(datapath)`: read `test_bow.csv` inside `datapath` with
`pd.read_csv`; on failure, log at error severity and re-raise. -/
def load_data (datapath : String) (w : World) : Except PyError (List (List ℚ)) × World :=
  match fsLookup w (datapath ++ "/test_bow.csv") with
  | none =>
      (.error (.fileNotFound (datapath ++ "/test_bow.csv")),
       pushLog .error (s!"Error: File not found in path {datapath}. Details: missing test_bow.csv") w)
  | some (.csv rows) => (.ok rows, w)
  | some .emptyCsv =>
      (.error .emptyDataError,
       pushLog .error "Error: The CSV file is empty." w)
  | some _ =>
      (.error .parserError,
       pushLog .error "Error: Error parsing the CSV file." w)

/-- `clf.predict(X_test)`: attribute lookup then call; a missing attribute
raises `AttributeError`. -/
def modelPredict (clf : SklearnModel) (x : List Row) : Except PyError (List ℚ) :=
  if clf.hasPredict then .ok (x.map clf.predictFn)
  else .error (.attributeError "object has no attribute predict")

/-- `clf.predict_proba(X_test)`: attribute lookup then call; result is the
two-column probability matrix. -/
def modelPredictProba (clf : SklearnModel) (x : List Row) : Except PyError (List (ℚ × ℚ)) :=
  if clf.hasPredictProba then .ok (x.map clf.predictProbaFn)
  else .error (.attributeError "object has no attribute predict_proba")

/-- A dvclive logging call: the oracle decides whether the k-th call of
this session raises; on success the event is appended to the trace. -/
def liveCall (o : ℕ → Option PyError) (k : ℕ) (ev : TrackEvent) (w : World) :
    Except PyError Unit × World :=
  match o k with
  | some e => (.error e, w)
  | none => (.ok (), pushTrack ev w)

/-- The inner loop `for key, val in value.items(): live.log_param(...)` for
one top-level section `param` whose value is the mapping `es`. -/
def logParamEntries (o : ℕ → Option PyError) (param : String)
    (es : List (String × YamlVal)) (k : ℕ) (w : World) :
    Except PyError Unit × ℕ × World :=
  match es with
  | [] => (.ok (), k, w)
  | (key, val) :: rest =>
      match liveCall o k (.logParam (param ++ "_" ++ key) val) w with
      | (.error e, w₁) => (.error e, k, w₁)
      | (.ok _, w₁) => logParamEntries o param rest (k + 1) w₁

/-- The outer loop `for param, value in params.items()`.  When a top-level
value is a scalar, `value.items()` raises `AttributeError` at that point
and the loop is abandoned. -/
def logParamsLoop (o : ℕ → Option PyError) (params : Params) (k : ℕ) (w : World) :
    Except PyError Unit × ℕ × World :=
  match params with
  | [] => (.ok (), k, w)
  | (_, .scalar _) :: _ =>
      (.error (.attributeError "object has no attribute items"), k, w)
  | (param, .dict es) :: rest =>
      match logParamEntries o param es k w with
      | (.error e, k₁, w₁) => (.error e, k₁, w₁)
      | (.ok _, k₁, w₁) => logParamsLoop o rest k₁ w₁

/-- The body of the `with Live(save_dvc_exp=True) as live:` block: the four
`log_metric` calls followed by the flattened-parameter loop. -/
def liveBody (o : ℕ → Option PyError) (accuracyV precisionV recallV aucV : ℚ)
    (params : Params) (w : World) : Except PyError Unit × World :=
  match liveCall o 0 (.logMetric "accuracy" accuracyV) w with
  | (.error e, w₁) => (.error e, w₁)
  | (.ok _, w₁) =>
  match liveCall o 1 (.logMetric "precision" precisionV) w₁ with
  | (.error e, w₂) => (.error e, w₂)
  | (.ok _, w₂) =>
  match liveCall o 2 (.logMetric "recall" recallV) w₂ with
  | (.error e, w₃) => (.error e, w₃)
  | (.ok _, w₃) =>
  match liveCall o 3 (.logMetric "roc -auc score" aucV) w₃ with
  | (.error e, w₄) => (.error e, w₄)
  | (.ok _, w₄) =>
      match logParamsLoop o params 4 w₄ with
      | (r, _, w₅) => (r, w₅)

/-- The `try:` block of `evaluate_model`.  The `with` statement opens the
tracking session, runs the body, and closes the session on exit from the
scope whether or not the body raised, then propagates the body's outcome. -/
def evalTry (o : ℕ → Option PyError) (clf : SklearnModel)
    (X_test : List Row) (Y_test : List ℚ) (w : World) :
    Except PyError (List (String × ℚ)) × World :=
  match modelPredict clf X_test with
  | .error e => (.error e, w)
  | .ok Y_pred =>
  match modelPredictProba clf X_test with
  | .error e => (.error e, w)
  | .ok proba =>
  let Y_pred_proba := proba.map (fun p => p.2)
  match load_params "params.yaml" w with
  | (.error e, w₁) => (.error e, w₁)
  | (.ok params, w₁) =>
  match accuracy_score Y_test Y_pred with
  | .error e => (.error e, w₁)
  | .ok accuracyV =>
  match precision_score Y_test Y_pred with
  | .error e => (.error e, w₁)
  | .ok precisionV =>
  match recall_score Y_test Y_pred with
  | .error e => (.error e, w₁)
  | .ok recallV =>
  match roc_auc_score Y_test Y_pred_proba with
  | .error e => (.error e, w₁)
  | .ok aucV =>
  let w₂ := pushTrack .openSession w₁
  match liveBody o accuracyV precisionV recallV aucV params w₂ with
  | (bodyRes, w₃) =>
  let w₄ := pushTrack .closeSession w₃
  match bodyRes with
  | .error e => (.error e, w₄)
  | .ok _ =>
      (.ok [("accuracy", accuracyV), ("precision", precisionV),
            ("recall", recallV), ("auc", aucV)], w₄)

/-- `evaluate_model(clf, X_test, Y_test)`: run the evaluation, and on any
exception log through the matching `except` branch and re-raise.
`AttributeError` and `ValueError` have dedicated branches; everything else
(including a failure of `load_params`) hits the catch-all branch. -/
def evaluate_model (o : ℕ → Option PyError) (clf : SklearnModel)
    (X_test : List Row) (Y_test : List ℚ) (w : World) :
    Except PyError (List (String × ℚ)) × World :=
  match evalTry o clf X_test Y_test w with
  | (.ok md, w') => (.ok md, w')
  | (.error e, w') =>
      match e with
      | .attributeError d =>
          (.error (.attributeError d),
           pushLog .error ("Error: Model does not have the required methods. Details: " ++ d) w')
      | .valueError d =>
          (.error (.valueError d),
           pushLog .error ("Error: Value error in predictions or metrics calculation. Details: " ++ d) w')
      | e' =>
          (.error e',
           pushLog .error ("An unexpected error occurred while evaluating the model: " ++ pyErrMsg e') w')

/-- Serialize one dict value as JSON text, `none` when `json.dump` would
raise `TypeError`. -/
def renderVal : PyVal → Option String
  | .num q => some (toString q)
  | .str s => some ("\x22" ++ s ++ "\x22")
  | .nonSerializable => none

/-- Serialize a metrics dict as JSON text (4-space indented object),
`none` when some value is not serializable. -/
def jsonRender (metrics : List (String × PyVal)) : Option String :=
  match metrics with
  | [] => some "\x7b\x7d"
  | _ =>
      match metrics.mapM (fun p => (renderVal p.2).map
          (fun v => "    \x22" ++ p.1 ++ "\x22: " ++ v)) with
      | some lines => some ("\x7b\n" ++ String.intercalate ",\n" lines ++ "\n\x7d")
      | none => none

/-- `save_metrics_dict(metrics, file_path)`: `open(file_path, "w")`
creates/truncates the target before `json.dump` runs; a `TypeError` from a
non-serializable value is logged and re-raised, with the truncated file
left behind. -/
def save_metrics_dict (metrics : List (String × PyVal)) (file_path : String)
    (w : World) : Except PyError Unit × World :=
  let w₁ := fsWrite file_path (.text "") w
  match jsonRender metrics with
  | some s => (.ok (), fsWrite file_path (.text s) w₁)
  | none =>
      (.error (.typeError "Object of type set is not JSON serializable"),
       pushLog .error "Error: Type error in metrics dictionary. Details: Object of type set is not JSON serializable" w₁)

/-- The `try:` block of `main()`: the pipeline stages in order. -/
def mainTry (o : ℕ → Option PyError) (w : World) : Except PyError Unit × World :=
  match load_model "models/model.pkl" w with
  | (.error e, w₁) => (.error e, w₁)
  | (.ok clf, w₁) =>
  let w₂ := pushLog .debug "Saved model loaded successfully" w₁
  match load_data "data/processed" w₂ with
  | (.error e, w₃) => (.error e, w₃)
  | (.ok test_data, w₃) =>
  let w₄ := pushLog .debug "Test Data loaded successfully" w₃
  let X_test := test_data.map (fun r => r.dropLast)
  let Y_test := test_data.map (fun r => r.getLastD 0)
  match evaluate_model o clf X_test Y_test w₄ with
  | (.error e, w₅) => (.error e, w₅)
  | (.ok metrics_dict, w₅) =>
  let w₆ := pushLog .debug "Model Evaluation dictionary created successfully" w₅
  match save_metrics_dict (metrics_dict.map (fun p => (p.1, PyVal.num p.2)))
      "reports/metrics.json" w₆ with
  | (.error e, w₇) => (.error e, w₇)
  | (.ok _, w₇) =>
      (.ok (), pushLog .debug "JSON dump of model evaluation dictionary done" w₇)

/-- `main()`: run the pipeline; any exception is caught at this top level,
logged at error severity, and not re-raised. -/
def main (o : ℕ → Option PyError) (w : World) : Except PyError Unit × World :=
  match mainTry o w with
  | (.ok _, w') => (.ok (), w')
  | (.error e, w') =>
      (.ok (), pushLog .error ("An error occurred in the main function: " ++ pyErrMsg e) w')

/-! ## Helper lemmas -/

/-- A ratio of naturals with numerator at most denominator lies in [0, 1]
(with the 0/0 = 0 convention of rational division). -/
theorem natRatio_mem_unit {a b : ℕ} (h : a ≤ b) :
    0 ≤ (a : ℚ) / (b : ℚ) ∧ (a : ℚ) / (b : ℚ) ≤ 1 := by
  rcases Nat.eq_zero_or_pos b with hb | hb
  · subst hb
    have ha : a = 0 := Nat.le_zero.mp h
    subst ha
    norm_num
  · constructor
    · positivity
    · rw [div_le_one (by exact_mod_cast hb)]
      exact_mod_cast h

theorem countMatches_le_length (y t : List ℚ) : countMatches y t ≤ y.length := by
  refine le_trans (List.countP_le_length _) ?_
  rw [List.length_zip y t]
  exact min_le_left _ _

theorem accuracy_score_ok_unit {y t : List ℚ} {q : ℚ}
    (h : accuracy_score y t = .ok q) : 0 ≤ q ∧ q ≤ 1 := by
  unfold accuracy_score at h
  split at h
  · injection h with h
    subst h
    exact natRatio_mem_unit (countMatches_le_length y t)
  · cases h

theorem precision_score_ok_unit {y t : List ℚ} {q : ℚ}
    (h : precision_score y t = .ok q) : 0 ≤ q ∧ q ≤ 1 := by
  unfold precision_score at h
  split at h
  · split at h
    · injection h with h
      subst h
      exact natRatio_mem_unit (Nat.le_add_right _ _)
    · cases h
  · cases h

theorem recall_score_ok_unit {y t : List ℚ} {q : ℚ}
    (h : recall_score y t = .ok q) : 0 ≤ q ∧ q ≤ 1 := by
  unfold recall_score at h
  split at h
  · split at h
    · injection h with h
      subst h
      exact natRatio_mem_unit (Nat.le_add_right _ _)
    · cases h
  · cases h

theorem pairScore_nonneg (p n : ℚ) : 0 ≤ pairScore p n := by
  unfold pairScore
  split
  · norm_num
  · split <;> norm_num

theorem pairScore_le_one (p n : ℚ) : pairScore p n ≤ 1 := by
  unfold pairScore
  split
  · norm_num
  · split <;> norm_num

/-- When the label lists have matching lengths and `lbl` occurs among the
labels, at least one score is selected for that label. -/
theorem scoresOf_length_pos {lbl : ℚ} :
    ∀ {y s : List ℚ}, y.length = s.length → lbl ∈ y → 0 < (scoresOf lbl y s).length := by
  intro y
  induction y with
  | nil => intro s _ hm; cases hm
  | cons a ys ih =>
      intro s hlen hm
      cases s with
      | nil => simp at hlen
      | cons b ss =>
          by_cases hab : a = lbl
          · subst hab
            simp [scoresOf]
          · have hm' : lbl ∈ ys := by
              cases hm with
              | head => exact absurd rfl hab
              | tail _ h => exact h
            have hlen' : ys.length = ss.length := by
              simpa using hlen
            have := ih hlen' hm'
            simpa [scoresOf, hab] using this

theorem roc_auc_score_ok_unit {y s : List ℚ} {q : ℚ}
    (h : roc_auc_score y s = .ok q) : 0 ≤ q ∧ q ≤ 1 := by
  unfold roc_auc_score at h
  split at h
  case isTrue hlen =>
    split at h
    case isTrue =>
      split at h
      case isTrue hmem =>
        injection h with h
        subst h
        set pos := scoresOf 1 y s with hpos
        set neg := scoresOf 0 y s with hneg
        have hP : 0 < pos.length := scoresOf_length_pos hlen hmem.1
        have hN : 0 < neg.length := scoresOf_length_pos hlen hmem.2
        have hinner : ∀ x ∈ pos.map (fun p => (neg.map (fun n => pairScore p n)).sum),
            0 ≤ x ∧ x ≤ (neg.length : ℚ) := by
          intro x hx
          rcases List.mem_map.mp hx with ⟨p, _, rfl⟩
          constructor
          · exact List.sum_nonneg (by
              intro v hv
              rcases List.mem_map.mp hv with ⟨n, _, rfl⟩
              exact pairScore_nonneg p n)
          · have := List.sum_le_card_nsmul (neg.map (fun n => pairScore p n)) 1 (by
              intro v hv
              rcases List.mem_map.mp hv with ⟨n, _, rfl⟩
              exact pairScore_le_one p n)
            rw [List.length_map] at this
            simpa [nsmul_eq_mul] using this
        have hsum_nonneg :
            0 ≤ (pos.map (fun p => (neg.map (fun n => pairScore p n)).sum)).sum :=
          List.sum_nonneg (fun x hx => (hinner x hx).1)
        have hsum_le :
            (pos.map (fun p => (neg.map (fun n => pairScore p n)).sum)).sum ≤
              ((pos.length * neg.length : ℕ) : ℚ) := by
          have := List.sum_le_card_nsmul
              (pos.map (fun p => (neg.map (fun n => pairScore p n)).sum))
              ((neg.length : ℚ)) (fun x hx => (hinner x hx).2)
          rw [List.length_map] at this
          push_cast
          simpa [nsmul_eq_mul] using this
        have hden : (0 : ℚ) < ((pos.length * neg.length : ℕ) : ℚ) := by
          have : 0 < pos.length * neg.length := Nat.mul_pos hP hN
          exact_mod_cast this
        constructor
        · exact div_nonneg hsum_nonneg (le_of_lt hden)
        · rw [div_le_one hden]
          exact hsum_le
      case isFalse => cases h
    case isFalse => cases h
  case isFalse => cases h

theorem modelPredict_ok {clf : SklearnModel} {x : List Row} {l : List ℚ}
    (h : modelPredict clf x = .ok l) : l = x.map clf.predictFn := by
  unfold modelPredict at h
  split at h
  · injection h with h
    exact h.symm
  · cases h

theorem modelPredictProba_ok {clf : SklearnModel} {x : List Row} {l : List (ℚ × ℚ)}
    (h : modelPredictProba clf x = .ok l) : l = x.map clf.predictProbaFn := by
  unfold modelPredictProba at h
  split at h
  · injection h with h
    exact h.symm
  · cases h

theorem evalTry_ok_inv {o : ℕ → Option PyError} {clf : SklearnModel}
    {X_test : List Row} {Y_test : List ℚ} {w : World}
    {md : List (String × ℚ)}
    (h : (evalTry o clf X_test Y_test w).1 = .ok md) :
    ∃ a b c d,
      accuracy_score Y_test (X_test.map clf.predictFn) = .ok a ∧
      precision_score Y_test (X_test.map clf.predictFn) = .ok b ∧
      recall_score Y_test (X_test.map clf.predictFn) = .ok c ∧
      roc_auc_score Y_test ((X_test.map clf.predictProbaFn).map (fun p => p.2)) = .ok d ∧
      md = [("accuracy", a), ("precision", b), ("recall", c), ("auc", d)] := by
  unfold evalTry at h
  split at h
  · cases h
  · next Y_pred heqPred =>
    split at h
    · cases h
    · next proba heqProba =>
      split at h
      · cases h
      · next params w1 heqParams =>
        split at h
        · cases h
        · next a hacc =>
          split at h
          · cases h
          · next b hprec =>
            split at h
            · cases h
            · next c hrec =>
              dsimp only at h
              split at h
              · cases h
              · next d hauc =>
                split at h
                · cases h
                · injection h with h
                  subst h
                  rw [modelPredict_ok heqPred] at hacc hprec hrec
                  rw [modelPredictProba_ok heqProba] at hauc
                  exact ⟨a, b, c, d, hacc, hprec, hrec, hauc, rfl⟩

/-- `evaluate_model` succeeds exactly when its `try` block does, with the
same metrics dict. -/
theorem evaluate_model_ok_inv {o : ℕ → Option PyError} {clf : SklearnModel}
    {X_test : List Row} {Y_test : List ℚ} {w : World}
    {md : List (String × ℚ)}
    (h : (evaluate_model o clf X_test Y_test w).1 = .ok md) :
    (evalTry o clf X_test Y_test w).1 = .ok md := by
  unfold evaluate_model at h
  split at h
  · next md0 w0 heq =>
    rw [heq]
    simpa using h
  · next e w0 heq =>
    split at h <;> simp at h

/-! ## Trace bookkeeping lemmas -/

theorem pushLog_track (lvl : LogLevel) (m : String) (w : World) :
    (pushLog lvl m w).track = w.track := rfl

theorem pushTrack_log (ev : TrackEvent) (w : World) :
    (pushTrack ev w).log = w.log := rfl

theorem load_params_track (url : String) (w : World) :
    (load_params url w).2.track = w.track := by
  unfold load_params
  split <;> rfl

theorem liveCall_track (o : ℕ → Option PyError) (k : ℕ) (ev : TrackEvent) (w : World) :
    ∃ tail, (liveCall o k ev w).2.track = w.track ++ tail := by
  unfold liveCall
  cases o k with
  | some e => exact ⟨[], by simp⟩
  | none => exact ⟨[ev], rfl⟩

theorem liveCall_log (o : ℕ → Option PyError) (k : ℕ) (ev : TrackEvent) (w : World) :
    (liveCall o k ev w).2.log = w.log := by
  unfold liveCall
  cases o k with
  | some e => rfl
  | none => rfl

theorem logParamEntries_track (o : ℕ → Option PyError) (param : String) :
    ∀ (es : List (String × YamlVal)) (k : ℕ) (w : World),
      ∃ tail, (logParamEntries o param es k w).2.2.track = w.track ++ tail := by
  intro es
  induction es with
  | nil => intro k w; exact ⟨[], by simp [logParamEntries]⟩
  | cons e rest ih =>
      intro k w
      unfold logParamEntries
      obtain ⟨t₁, ht₁⟩ := liveCall_track o k (.logParam (param ++ "_" ++ e.1) e.2) w
      split
      · next er w₁ heq =>
        refine ⟨t₁, ?_⟩
        have : w₁ = (liveCall o k (.logParam (param ++ "_" ++ e.1) e.2) w).2 := by
          rw [heq]
        rw [this]
        exact ht₁
      · next w₁ heq =>
        obtain ⟨t₂, ht₂⟩ := ih (k + 1) w₁
        refine ⟨t₁ ++ t₂, ?_⟩
        have hw₁ : w₁ = (liveCall o k (.logParam (param ++ "_" ++ e.1) e.2) w).2 := by
          rw [heq]
        rw [ht₂, hw₁, ht₁, List.append_assoc]

theorem logParamEntries_log (o : ℕ → Option PyError) (param : String) :
    ∀ (es : List (String × YamlVal)) (k : ℕ) (w : World),
      (logParamEntries o param es k w).2.2.log = w.log := by
  intro es
  induction es with
  | nil => intro k w; simp [logParamEntries]
  | cons e rest ih =>
      intro k w
      unfold logParamEntries
      split
      · next er w₁ heq =>
        have : w₁ = (liveCall o k (.logParam (param ++ "_" ++ e.1) e.2) w).2 := by
          rw [heq]
        rw [this, liveCall_log]
      · next w₁ heq =>
        have hw₁ : w₁ = (liveCall o k (.logParam (param ++ "_" ++ e.1) e.2) w).2 := by
          rw [heq]
        rw [ih, hw₁, liveCall_log]

theorem logParamsLoop_track (o : ℕ → Option PyError) :
    ∀ (params : Params) (k : ℕ) (w : World),
      ∃ tail, (logParamsLoop o params k w).2.2.track = w.track ++ tail := by
  intro params
  induction params with
  | nil => intro k w; exact ⟨[], by simp [logParamsLoop]⟩
  | cons e rest ih =>
      intro k w
      match e with
      | (param, .scalar sv) => exact ⟨[], by simp [logParamsLoop]⟩
      | (param, .dict es) =>
          unfold logParamsLoop
          obtain ⟨t₁, ht₁⟩ := logParamEntries_track o param es k w
          split
          · next er k₁ w₁ heq =>
            refine ⟨t₁, ?_⟩
            have : w₁ = (logParamEntries o param es k w).2.2 := by rw [heq]
            rw [this]
            exact ht₁
          · next k₁ w₁ heq =>
            obtain ⟨t₂, ht₂⟩ := ih k₁ w₁
            refine ⟨t₁ ++ t₂, ?_⟩
            have hw₁ : w₁ = (logParamEntries o param es k w).2.2 := by rw [heq]
            rw [ht₂, hw₁, ht₁, List.append_assoc]

theorem logParamsLoop_log (o : ℕ → Option PyError) :
    ∀ (params : Params) (k : ℕ) (w : World),
      (logParamsLoop o params k w).2.2.log = w.log := by
  intro params
  induction params with
  | nil => intro k w; simp [logParamsLoop]
  | cons e rest ih =>
      intro k w
      match e with
      | (param, .scalar sv) => simp [logParamsLoop]
      | (param, .dict es) =>
          unfold logParamsLoop
          split
          · next er k₁ w₁ heq =>
            have : w₁ = (logParamEntries o param es k w).2.2 := by rw [heq]
            rw [this, logParamEntries_log]
          · next k₁ w₁ heq =>
            have hw₁ : w₁ = (logParamEntries o param es k w).2.2 := by rw [heq]
            rw [ih, hw₁, logParamEntries_log]

theorem liveBody_track (o : ℕ → Option PyError) (a b c d : ℚ) (params : Params) (w : World) :
    ∃ tail, (liveBody o a b c d params w).2.track = w.track ++ tail := by
  unfold liveBody
  obtain ⟨t₀, ht₀⟩ := liveCall_track o 0 (.logMetric "accuracy" a) w
  split
  · next e w₁ heq =>
    refine ⟨t₀, ?_⟩
    have : w₁ = (liveCall o 0 (.logMetric "accuracy" a) w).2 := by rw [heq]
    rw [this]; exact ht₀
  · next w₁ heq₁ =>
    have hw₁ : w₁ = (liveCall o 0 (.logMetric "accuracy" a) w).2 := by rw [heq₁]
    obtain ⟨t₁, ht₁⟩ := liveCall_track o 1 (.logMetric "precision" b) w₁
    split
    · next e w₂ heq =>
      refine ⟨t₀ ++ t₁, ?_⟩
      have : w₂ = (liveCall o 1 (.logMetric "precision" b) w₁).2 := by rw [heq]
      rw [this, ht₁, hw₁, ht₀, List.append_assoc]
    · next w₂ heq₂ =>
      have hw₂ : w₂ = (liveCall o 1 (.logMetric "precision" b) w₁).2 := by rw [heq₂]
      obtain ⟨t₂, ht₂⟩ := liveCall_track o 2 (.logMetric "recall" c) w₂
      split
      · next e w₃ heq =>
        refine ⟨t₀ ++ t₁ ++ t₂, ?_⟩
        have : w₃ = (liveCall o 2 (.logMetric "recall" c) w₂).2 := by rw [heq]
        rw [this, ht₂, hw₂, ht₁, hw₁, ht₀]
        simp [List.append_assoc]
      · next w₃ heq₃ =>
        have hw₃ : w₃ = (liveCall o 2 (.logMetric "recall" c) w₂).2 := by rw [heq₃]
        obtain ⟨t₃, ht₃⟩ := liveCall_track o 3 (.logMetric "roc -auc score" d) w₃
        split
        · next e w₄ heq =>
          refine ⟨t₀ ++ t₁ ++ t₂ ++ t₃, ?_⟩
          have : w₄ = (liveCall o 3 (.logMetric "roc -auc score" d) w₃).2 := by rw [heq]
          rw [this, ht₃, hw₃, ht₂, hw₂, ht₁, hw₁, ht₀]
          simp [List.append_assoc]
        · next w₄ heq₄ =>
          have hw₄ : w₄ = (liveCall o 3 (.logMetric "roc -auc score" d) w₃).2 := by rw [heq₄]
          obtain ⟨t₄, ht₄⟩ := logParamsLoop_track o params 4 w₄
          split
          next r k₅ w₅ heq₅ =>
          refine ⟨t₀ ++ t₁ ++ t₂ ++ t₃ ++ t₄, ?_⟩
          have hw₅ : w₅ = (logParamsLoop o params 4 w₄).2.2 := by rw [heq₅]
          dsimp only
          rw [hw₅, ht₄, hw₄, ht₃, hw₃, ht₂, hw₂, ht₁, hw₁, ht₀]
          simp [List.append_assoc]

theorem liveBody_log (o : ℕ → Option PyError) (a b c d : ℚ) (params : Params) (w : World) :
    (liveBody o a b c d params w).2.log = w.log := by
  unfold liveBody
  split
  · next e w₁ heq =>
    have : w₁ = (liveCall o 0 (.logMetric "accuracy" a) w).2 := by rw [heq]
    rw [this, liveCall_log]
  · next w₁ heq₁ =>
    have hw₁ : w₁ = (liveCall o 0 (.logMetric "accuracy" a) w).2 := by rw [heq₁]
    split
    · next e w₂ heq =>
      have : w₂ = (liveCall o 1 (.logMetric "precision" b) w₁).2 := by rw [heq]
      rw [this, liveCall_log, hw₁, liveCall_log]
    · next w₂ heq₂ =>
      have hw₂ : w₂ = (liveCall o 1 (.logMetric "precision" b) w₁).2 := by rw [heq₂]
      split
      · next e w₃ heq =>
        have : w₃ = (liveCall o 2 (.logMetric "recall" c) w₂).2 := by rw [heq]
        rw [this, liveCall_log, hw₂, liveCall_log, hw₁, liveCall_log]
      · next w₃ heq₃ =>
        have hw₃ : w₃ = (liveCall o 2 (.logMetric "recall" c) w₂).2 := by rw [heq₃]
        split
        · next e w₄ heq =>
          have : w₄ = (liveCall o 3 (.logMetric "roc -auc score" d) w₃).2 := by rw [heq]
          rw [this, liveCall_log, hw₃, liveCall_log, hw₂, liveCall_log, hw₁, liveCall_log]
        · next w₄ heq₄ =>
          have hw₄ : w₄ = (liveCall o 3 (.logMetric "roc -auc score" d) w₃).2 := by rw [heq₄]
          split
          next r k₅ w₅ heq₅ =>
          have hw₅ : w₅ = (logParamsLoop o params 4 w₄).2.2 := by rw [heq₅]
          dsimp only
          rw [hw₅, logParamsLoop_log, hw₄, liveCall_log, hw₃, liveCall_log, hw₂,
            liveCall_log, hw₁, liveCall_log]

theorem evalTry_track (o : ℕ → Option PyError) (clf : SklearnModel)
    (X_test : List Row) (Y_test : List ℚ) (w : World) :
    (evalTry o clf X_test Y_test w).2.track = w.track ∨
    ∃ mids, (evalTry o clf X_test Y_test w).2.track =
      w.track ++ (TrackEvent.openSession :: (mids ++ [TrackEvent.closeSession])) := by
  unfold evalTry
  split
  · exact Or.inl rfl
  · split
    · exact Or.inl rfl
    · split
      · next e w₁ heq =>
        left
        have : w₁ = (load_params "params.yaml" w).2 := by rw [heq]
        rw [this, load_params_track]
      · next params w₁ heq =>
        have hw₁ : w₁ = (load_params "params.yaml" w).2 := by rw [heq]
        split
        · left
          rw [hw₁, load_params_track]
        · next a hacc =>
          split
          · left
            rw [hw₁, load_params_track]
          · next b hprec =>
            split
            · left
              rw [hw₁, load_params_track]
            · next c hrec =>
              dsimp only
              split
              · left
                rw [hw₁, load_params_track]
              · next d hauc =>
                right
                obtain ⟨tail, htail⟩ :=
                  liveBody_track o a b c d params (pushTrack TrackEvent.openSession w₁)
                refine ⟨tail, ?_⟩
                have hclose : ∀ w0 : World,
                    (pushTrack TrackEvent.closeSession w0).track =
                      w0.track ++ [TrackEvent.closeSession] := fun _ => rfl
                have hopen : (pushTrack TrackEvent.openSession w₁).track =
                    w₁.track ++ [TrackEvent.openSession] := rfl
                split
                · next e heq =>
                  rw [hclose, htail, hopen, hw₁, load_params_track]
                  simp
                · rw [hclose, htail, hopen, hw₁, load_params_track]
                  simp

theorem evaluate_model_track (o : ℕ → Option PyError) (clf : SklearnModel)
    (X_test : List Row) (Y_test : List ℚ) (w : World) :
    (evaluate_model o clf X_test Y_test w).2.track =
      (evalTry o clf X_test Y_test w).2.track := by
  unfold evaluate_model
  split
  · next md0 w0 heq =>
    rw [heq]
  · next e w0 heq =>
    split <;> (rw [heq]; rfl)

theorem logParamEntries_none_ok (param : String) :
    ∀ (es : List (String × YamlVal)) (k : ℕ) (w : World),
      (logParamEntries (fun _ => none) param es k w).1 = .ok () := by
  intro es
  induction es with
  | nil => intro k w; rfl
  | cons e rest ih =>
      intro k w
      unfold logParamEntries
      simp only [liveCall]
      exact ih (k + 1) _

theorem logParamsLoop_scalar :
    ∀ (params : Params) (k : ℕ) (w : World),
      (∃ p ∈ params, ∃ sv, p.2 = YamlVal.scalar sv) →
      (logParamsLoop (fun _ => none) params k w).1 =
        .error (.attributeError "object has no attribute items") := by
  intro params
  induction params with
  | nil =>
      intro k w h
      obtain ⟨p, hp, _⟩ := h
      cases hp
  | cons e rest ih =>
      intro k w h
      match e with
      | (param, .scalar sv) => rfl
      | (param, .dict es) =>
          unfold logParamsLoop
          split
          · next er k₁ w₁ heq =>
            have := logParamEntries_none_ok param es k w
            rw [heq] at this
            cases this
          · next k₁ w₁ heq =>
            apply ih
            obtain ⟨p, hp, sv, hsv⟩ := h
            cases hp with
            | head => cases hsv
            | tail _ hmem => exact ⟨p, hmem, sv, hsv⟩

theorem liveBody_none_fst (a b c d : ℚ) (params : Params) (w : World) :
    (liveBody (fun _ => none) a b c d params w).1 =
      (logParamsLoop (fun _ => none) params 4
        (pushTrack (.logMetric "roc -auc score" d)
          (pushTrack (.logMetric "recall" c)
            (pushTrack (.logMetric "precision" b)
              (pushTrack (.logMetric "accuracy" a) w))))).1 := by
  unfold liveBody
  simp only [liveCall]

theorem evalTry_scalar_param {clf : SklearnModel} {X : List Row} {Y : List ℚ}
    {w : World} {ps : Params} {a b c d : ℚ}
    (hp : clf.hasPredict = true) (hpp : clf.hasPredictProba = true)
    (hyaml : fsLookup w "params.yaml" = some (.yaml ps))
    (hacc : accuracy_score Y (X.map clf.predictFn) = .ok a)
    (hprec : precision_score Y (X.map clf.predictFn) = .ok b)
    (hrec : recall_score Y (X.map clf.predictFn) = .ok c)
    (hauc : roc_auc_score Y ((X.map clf.predictProbaFn).map (fun p => p.2)) = .ok d)
    (hs : ∃ p ∈ ps, ∃ sv, p.2 = YamlVal.scalar sv) :
    (evalTry (fun _ => none) clf X Y w).1 =
        .error (.attributeError "object has no attribute items") ∧
    (evalTry (fun _ => none) clf X Y w).2.log = w.log := by
  unfold evalTry
  simp only [modelPredict, modelPredictProba, hp, hpp, if_true]
  unfold load_params
  simp only [hyaml]
  simp only [hacc, hprec, hrec, hauc]
  have hlb : (liveBody (fun _ => none) a b c d ps
      (pushTrack TrackEvent.openSession w)).1 =
      .error (.attributeError "object has no attribute items") := by
    rw [liveBody_none_fst]
    exact logParamsLoop_scalar ps 4 _ hs
  have hlblog : (liveBody (fun _ => none) a b c d ps
      (pushTrack TrackEvent.openSession w)).2.log = w.log := by
    rw [liveBody_log]
    rfl
  split
  · next e heq =>
    rw [heq] at hlb
    injection hlb with h1
    subst h1
    refine ⟨rfl, ?_⟩
    show (pushTrack TrackEvent.closeSession
        (liveBody (fun _ => none) a b c d ps (pushTrack TrackEvent.openSession w)).2).log = w.log
    rw [pushTrack_log, hlblog]
  · next u heq =>
    rw [heq] at hlb
    cases hlb

/-- The message logged by the `except` branch of `evaluate_model` that an
exception of class `e` selects. -/
def evalHandlerMsg : PyError → String
  | .attributeError d => "Error: Model does not have the required methods. Details: " ++ d
  | .valueError d => "Error: Value error in predictions or metrics calculation. Details: " ++ d
  | e => "An unexpected error occurred while evaluating the model: " ++ pyErrMsg e

/-- Any exception in the `try` block of `evaluate_model` is logged at error
severity by the matching `except` branch and re-raised unchanged. -/
theorem evaluate_model_error {o : ℕ → Option PyError} {clf : SklearnModel}
    {X_test : List Row} {Y_test : List ℚ} {w : World} {e : PyError}
    (h : (evalTry o clf X_test Y_test w).1 = .error e) :
    (evaluate_model o clf X_test Y_test w).1 = .error e ∧
    (evaluate_model o clf X_test Y_test w).2.log =
      (evalTry o clf X_test Y_test w).2.log ++ [⟨.error, evalHandlerMsg e⟩] := by
  unfold evaluate_model
  split
  · next md0 w0 heq =>
    rw [heq] at h
    cases h
  · next e' w0 heq =>
    rw [heq] at h
    injection h with h'
    subst h'
    rw [heq]
    cases e' <;> exact ⟨rfl, rfl⟩

/-- With a well-formed environment, a row-count mismatch between the test
features and labels makes the first metric call raise `ValueError`. -/
theorem evalTry_length_mismatch {o : ℕ → Option PyError} {clf : SklearnModel}
    {X : List Row} {Y : List ℚ} {w : World} {ps : Params}
    (hp : clf.hasPredict = true) (hpp : clf.hasPredictProba = true)
    (hyaml : fsLookup w "params.yaml" = some (.yaml ps))
    (hlen : X.length ≠ Y.length) :
    (evalTry o clf X Y w).1 =
        .error (.valueError "Found input variables with inconsistent numbers of samples") ∧
    (evalTry o clf X Y w).2.log = w.log := by
  unfold evalTry
  simp only [modelPredict, modelPredictProba, hp, hpp, if_true]
  unfold load_params
  simp only [hyaml]
  have hne : ¬ (Y.length = (List.map clf.predictFn X).length) := by
    rw [List.length_map]
    exact fun h => hlen h.symm
  unfold accuracy_score
  rw [if_neg hne]
  exact ⟨rfl, rfl⟩

/-- A model object without `predict` fails at the very first attribute
access with `AttributeError`. -/
theorem evalTry_missing_predict {o : ℕ → Option PyError} {clf : SklearnModel}
    {X : List Row} {Y : List ℚ} {w : World}
    (hp : clf.hasPredict = false) :
    (evalTry o clf X Y w).1 = .error (.attributeError "object has no attribute predict") ∧
    (evalTry o clf X Y w).2.log = w.log := by
  unfold evalTry modelPredict
  rw [hp]
  exact ⟨rfl, rfl⟩

/-! ## Claims -/

/-- C1: every failure raised by any stage invoked inside `main()` (model
load, data load, evaluation, metrics save) is caught by `main`, logged at
error severity, and `main` returns normally without re-raising: no
exception escapes `main()`. -/
theorem main_swallows_all_errors (o : ℕ → Option PyError) (w : World) :
    (main o w).1 = .ok () ∧
    ∀ e w₁, mainTry o w = (.error e, w₁) →
      main o w = (.ok (),
        pushLog .error ("An error occurred in the main function: " ++ pyErrMsg e) w₁) := by
  constructor
  · unfold main
    split
    · rfl
    · rfl
  · intro e w₁ h
    unfold main
    rw [h]

theorem main_swallows_all_errors_witness :
    main (fun _ => none) ⟨[], [], []⟩ =
      (.ok (), pushLog .error ("An error occurred in the main function: " ++
          pyErrMsg (.fileNotFound "models/model.pkl"))
        (pushLog .error "Error: The file models/model.pkl was not found." ⟨[], [], []⟩)) :=
  (main_swallows_all_errors (fun _ => none) ⟨[], [], []⟩).2
    (.fileNotFound "models/model.pkl")
    (pushLog .error "Error: The file models/model.pkl was not found." ⟨[], [], []⟩)
    (by rfl)

/-- C2: when `models/model.pkl` is absent, `main()` logs an error entry
containing "not found", returns normally, and leaves the filesystem (in
particular `reports/metrics.json`) untouched. -/
theorem main_missing_model_frame (o : ℕ → Option PyError) (w : World)
    (h : fsLookup w "models/model.pkl" = none) :
    (main o w).1 = .ok () ∧
    (main o w).2.fs = w.fs ∧
    ∃ entry ∈ (main o w).2.log, entry.level = .error ∧
      "not found".data <:+: entry.msg.data := by
  have hmt : mainTry o w = (.error (.fileNotFound "models/model.pkl"),
      pushLog .error "Error: The file models/model.pkl was not found." w) := by
    unfold mainTry load_model
    rw [h]
    rfl
  unfold main
  rw [hmt]
  refine ⟨rfl, rfl, ?_⟩
  refine ⟨⟨.error, "Error: The file models/model.pkl was not found."⟩, ?_, rfl, ?_⟩
  · simp [pushLog]
  · decide

theorem main_missing_model_frame_witness :
    (main (fun _ => none) ⟨[], [], []⟩).1 = .ok () ∧
    (main (fun _ => none) ⟨[], [], []⟩).2.fs = (⟨[], [], []⟩ : World).fs ∧
    ∃ entry ∈ (main (fun _ => none) ⟨[], [], []⟩).2.log, entry.level = .error ∧
      "not found".data <:+: entry.msg.data :=
  main_missing_model_frame (fun _ => none) ⟨[], [], []⟩ rfl

/-- C3: a successful `evaluate_model` call returns a mapping with exactly
the four keys accuracy, precision, recall, auc, in that order, and each of
the four values lies in [0, 1]. -/
theorem evaluate_model_keys_and_unit_range (o : ℕ → Option PyError)
    (clf : SklearnModel) (X_test : List Row) (Y_test : List ℚ) (w : World)
    (md : List (String × ℚ))
    (h : (evaluate_model o clf X_test Y_test w).1 = .ok md) :
    md.map Prod.fst = ["accuracy", "precision", "recall", "auc"] ∧
    ∀ p ∈ md, 0 ≤ p.2 ∧ p.2 ≤ 1 := by
  obtain ⟨a, b, c, d, hacc, hprec, hrec, hauc, hmd⟩ :=
    evalTry_ok_inv (evaluate_model_ok_inv h)
  subst hmd
  refine ⟨rfl, ?_⟩
  intro p hp
  simp only [List.mem_cons, List.not_mem_nil, or_false] at hp
  rcases hp with rfl | rfl | rfl | rfl
  · exact accuracy_score_ok_unit hacc
  · exact precision_score_ok_unit hprec
  · exact recall_score_ok_unit hrec
  · exact roc_auc_score_ok_unit hauc

theorem evaluate_model_keys_and_unit_range_witness :
    ([(("accuracy" : String), (3 : ℚ)/4), ("precision", 3/4), ("recall", 1),
        ("auc", 1/2)].map Prod.fst = ["accuracy", "precision", "recall", "auc"]) ∧
    ∀ p ∈ [(("accuracy" : String), (3 : ℚ)/4), ("precision", 3/4), ("recall", 1),
        ("auc", 1/2)], 0 ≤ p.2 ∧ p.2 ≤ 1 :=
  evaluate_model_keys_and_unit_range (fun _ => none)
    ⟨true, true, fun _ => 1, fun _ => (1/2, 1/2)⟩
    [[0], [1], [2], [3]] [1, 1, 0, 1]
    ⟨[("params.yaml", .yaml [("model_building", .dict [("n_estimators", .scalar "10")])])], [], []⟩
    [("accuracy", 3/4), ("precision", 3/4), ("recall", 1), ("auc", 1/2)]
    (by norm_num [evaluate_model, evalTry, modelPredict, modelPredictProba, load_params,
      fsLookup, accuracy_score, precision_score, recall_score, roc_auc_score, countMatches,
      truePos, falsePos, falseNeg, binaryLabels, scoresOf, pairScore, liveBody, liveCall,
      logParamsLoop, logParamEntries, pushTrack, List.filterMap_cons, List.map_cons,
      List.sum_cons])

/-- C4: for a model predicting label 1 on every row and
Y_test = [1,1,0,1], `evaluate_model` computes accuracy = 0.75,
precision = 0.75, recall = 1.0 (auc = 0.5 for the constant probability
model used here). -/
theorem evaluate_model_all_ones_concrete :
    (evaluate_model (fun _ => none)
        ⟨true, true, fun _ => 1, fun _ => (1/2, 1/2)⟩
        [[0], [1], [2], [3]] [1, 1, 0, 1]
        ⟨[("params.yaml", .yaml [("model_building", .dict [("n_estimators", .scalar "10")])])],
          [], []⟩).1 =
      .ok [("accuracy", 3/4), ("precision", 3/4), ("recall", 1), ("auc", 1/2)] := by
  norm_num [evaluate_model, evalTry, modelPredict, modelPredictProba, load_params,
    fsLookup, accuracy_score, precision_score, recall_score, roc_auc_score, countMatches,
    truePos, falsePos, falseNeg, binaryLabels, scoresOf, pairScore, liveBody, liveCall,
    logParamsLoop, logParamEntries, pushTrack, List.filterMap_cons, List.map_cons,
    List.sum_cons]

/-- C5: with a model exposing both prediction methods and a loadable
parameters file, a row-count mismatch between X_test and Y_test makes
`evaluate_model` raise the `ValueError`-class metric-computation failure,
logged then re-raised, and no metrics are returned. -/
theorem evaluate_model_length_mismatch (o : ℕ → Option PyError)
    (clf : SklearnModel) (X_test : List Row) (Y_test : List ℚ) (w : World)
    (ps : Params)
    (hp : clf.hasPredict = true) (hpp : clf.hasPredictProba = true)
    (hyaml : fsLookup w "params.yaml" = some (.yaml ps))
    (hlen : X_test.length ≠ Y_test.length) :
    (evaluate_model o clf X_test Y_test w).1 =
      .error (.valueError "Found input variables with inconsistent numbers of samples") ∧
    (evaluate_model o clf X_test Y_test w).2.log = w.log ++
      [⟨.error, "Error: Value error in predictions or metrics calculation. Details: Found input variables with inconsistent numbers of samples"⟩] := by
  obtain ⟨h1, h2⟩ := evalTry_length_mismatch (o := o) hp hpp hyaml hlen
  obtain ⟨g1, g2⟩ := evaluate_model_error h1
  exact ⟨g1, by rw [g2, h2]; rfl⟩

theorem evaluate_model_length_mismatch_witness :
    (evaluate_model (fun _ => none) ⟨true, true, fun _ => 1, fun _ => (1/2, 1/2)⟩
        [[0]] [] ⟨[("params.yaml", .yaml [])], [], []⟩).1 =
      .error (.valueError "Found input variables with inconsistent numbers of samples") ∧
    (evaluate_model (fun _ => none) ⟨true, true, fun _ => 1, fun _ => (1/2, 1/2)⟩
        [[0]] [] ⟨[("params.yaml", .yaml [])], [], []⟩).2.log = [] ++
      [⟨.error, "Error: Value error in predictions or metrics calculation. Details: Found input variables with inconsistent numbers of samples"⟩] :=
  evaluate_model_length_mismatch (fun _ => none)
    ⟨true, true, fun _ => 1, fun _ => (1/2, 1/2)⟩ [[0]] []
    ⟨[("params.yaml", .yaml [])], [], []⟩ [] rfl rfl rfl (by decide)

/-- C6: a model object lacking the `predict` attribute makes
`evaluate_model` raise the `AttributeError`-class incompatible-model
failure, logged then re-raised, and no metrics are returned. -/
theorem evaluate_model_missing_predict (o : ℕ → Option PyError)
    (clf : SklearnModel) (X_test : List Row) (Y_test : List ℚ) (w : World)
    (hp : clf.hasPredict = false) :
    (evaluate_model o clf X_test Y_test w).1 =
      .error (.attributeError "object has no attribute predict") ∧
    (evaluate_model o clf X_test Y_test w).2.log = w.log ++
      [⟨.error, "Error: Model does not have the required methods. Details: object has no attribute predict"⟩] := by
  obtain ⟨h1, h2⟩ := evalTry_missing_predict (o := o) (X := X_test) (Y := Y_test) (w := w) hp
  obtain ⟨g1, g2⟩ := evaluate_model_error h1
  exact ⟨g1, by rw [g2, h2]; rfl⟩

theorem evaluate_model_missing_predict_witness :
    (evaluate_model (fun _ => none) ⟨false, false, fun _ => 1, fun _ => (1/2, 1/2)⟩
        [[0]] [1] ⟨[], [], []⟩).1 =
      .error (.attributeError "object has no attribute predict") ∧
    (evaluate_model (fun _ => none) ⟨false, false, fun _ => 1, fun _ => (1/2, 1/2)⟩
        [[0]] [1] ⟨[], [], []⟩).2.log = [] ++
      [⟨.error, "Error: Model does not have the required methods. Details: object has no attribute predict"⟩] :=
  evaluate_model_missing_predict (fun _ => none)
    ⟨false, false, fun _ => 1, fun _ => (1/2, 1/2)⟩ [[0]] [1] ⟨[], [], []⟩ rfl

/-- C7: on any successful call, the auc value `evaluate_model` returns is
the AUC-ROC of column index 1 of `predict_proba`'s output (the
positive-class probabilities), not of the hard predictions. -/
theorem evaluate_model_auc_from_proba_column_one (o : ℕ → Option PyError)
    (clf : SklearnModel) (X_test : List Row) (Y_test : List ℚ) (w : World)
    (md : List (String × ℚ))
    (h : (evaluate_model o clf X_test Y_test w).1 = .ok md) :
    ∃ q, md.lookup "auc" = some q ∧
      roc_auc_score Y_test ((X_test.map clf.predictProbaFn).map (fun p => p.2)) = .ok q := by
  obtain ⟨a, b, c, d, _, _, _, hauc, hmd⟩ :=
    evalTry_ok_inv (evaluate_model_ok_inv h)
  subst hmd
  exact ⟨d, rfl, hauc⟩

theorem evaluate_model_auc_from_proba_column_one_witness :
    ∃ q, ([(("accuracy" : String), (3 : ℚ)/4), ("precision", 3/4), ("recall", 1),
        ("auc", 1/2)].lookup "auc") = some q ∧
      roc_auc_score [1, 1, 0, 1]
        (([[0], [1], [2], [3]].map
            (fun (_ : Row) => ((1 : ℚ)/2, (1 : ℚ)/2))).map (fun p => p.2)) = .ok q :=
  evaluate_model_auc_from_proba_column_one (fun _ => none)
    ⟨true, true, fun _ => 1, fun _ => (1/2, 1/2)⟩
    [[0], [1], [2], [3]] [1, 1, 0, 1]
    ⟨[("params.yaml", .yaml [("model_building", .dict [("n_estimators", .scalar "10")])])], [], []⟩
    [("accuracy", 3/4), ("precision", 3/4), ("recall", 1), ("auc", 1/2)]
    (by norm_num [evaluate_model, evalTry, modelPredict, modelPredictProba, load_params,
      fsLookup, accuracy_score, precision_score, recall_score, roc_auc_score, countMatches,
      truePos, falsePos, falseNeg, binaryLabels, scoresOf, pairScore, liveBody, liveCall,
      logParamsLoop, logParamEntries, pushTrack, List.filterMap_cons, List.map_cons,
      List.sum_cons])

/-- C8: within `evaluate_model` the tracking session, when opened, is always
closed again before the call returns, whatever the oracle makes the
`log_metric` / `log_param` calls do: the events this call appends to the
trace are exactly an open, some logging events, and a close. -/
theorem evaluate_model_session_always_closed (o : ℕ → Option PyError)
    (clf : SklearnModel) (X_test : List Row) (Y_test : List ℚ) (w : World) :
    (evaluate_model o clf X_test Y_test w).2.track = w.track ∨
    ∃ mids, (evaluate_model o clf X_test Y_test w).2.track =
      w.track ++ (TrackEvent.openSession :: (mids ++ [TrackEvent.closeSession])) := by
  rw [evaluate_model_track]
  exact evalTry_track o clf X_test Y_test w

/-- C9: `save_metrics_dict` is not atomic on error: `open(path, "w")`
truncates the target before `json.dump` runs, so a non-serializable value
raises the `TypeError`-class failure while the prior contents at the path
have already been destroyed. -/
theorem save_metrics_dict_truncates_on_typeerror :
    (save_metrics_dict [("metrics", PyVal.nonSerializable)] "reports/metrics.json"
        ⟨[("reports/metrics.json", FileData.text "prior contents")], [], []⟩).1 =
      .error (.typeError "Object of type set is not JSON serializable") ∧
    fsLookup (save_metrics_dict [("metrics", PyVal.nonSerializable)] "reports/metrics.json"
        ⟨[("reports/metrics.json", FileData.text "prior contents")], [], []⟩).2
      "reports/metrics.json" = some (FileData.text "") ∧
    fsLookup ⟨[("reports/metrics.json", FileData.text "prior contents")], [], []⟩
      "reports/metrics.json" = some (FileData.text "prior contents") ∧
    FileData.text "" ≠ FileData.text "prior contents" := by
  refine ⟨rfl, rfl, rfl, ?_⟩
  intro h
  injection h with h
  exact absurd h (by decide)

/-- C10: a top-level `params.yaml` value that is not itself a mapping makes
the flattening loop raise `AttributeError` inside the tracking scope —
reported through the incompatible-model `except` branch — even when the
model exposes both prediction methods and all four metrics were computed
successfully (dvclive calls themselves assumed not to fail). -/
theorem evaluate_model_scalar_param_attributeerror
    (clf : SklearnModel) (X_test : List Row) (Y_test : List ℚ) (w : World)
    (ps : Params) (a b c d : ℚ)
    (hp : clf.hasPredict = true) (hpp : clf.hasPredictProba = true)
    (hyaml : fsLookup w "params.yaml" = some (.yaml ps))
    (hacc : accuracy_score Y_test (X_test.map clf.predictFn) = .ok a)
    (hprec : precision_score Y_test (X_test.map clf.predictFn) = .ok b)
    (hrec : recall_score Y_test (X_test.map clf.predictFn) = .ok c)
    (hauc : roc_auc_score Y_test
      ((X_test.map clf.predictProbaFn).map (fun p => p.2)) = .ok d)
    (hs : ∃ p ∈ ps, ∃ sv, p.2 = YamlVal.scalar sv) :
    (evaluate_model (fun _ => none) clf X_test Y_test w).1 =
      .error (.attributeError "object has no attribute items") ∧
    (evaluate_model (fun _ => none) clf X_test Y_test w).2.log = w.log ++
      [⟨.error, "Error: Model does not have the required methods. Details: object has no attribute items"⟩] := by
  obtain ⟨h1, h2⟩ := evalTry_scalar_param hp hpp hyaml hacc hprec hrec hauc hs
  obtain ⟨g1, g2⟩ := evaluate_model_error h1
  exact ⟨g1, by rw [g2, h2]; rfl⟩

theorem evaluate_model_scalar_param_attributeerror_witness :
    (evaluate_model (fun _ => none) ⟨true, true, fun _ => 1, fun _ => (1/2, 1/2)⟩
        [[0], [1], [2], [3]] [1, 1, 0, 1]
        ⟨[("params.yaml", .yaml [("learning_rate", .scalar "0.1")])], [], []⟩).1 =
      .error (.attributeError "object has no attribute items") ∧
    (evaluate_model (fun _ => none) ⟨true, true, fun _ => 1, fun _ => (1/2, 1/2)⟩
        [[0], [1], [2], [3]] [1, 1, 0, 1]
        ⟨[("params.yaml", .yaml [("learning_rate", .scalar "0.1")])], [], []⟩).2.log = [] ++
      [⟨.error, "Error: Model does not have the required methods. Details: object has no attribute items"⟩] :=
  evaluate_model_scalar_param_attributeerror
    ⟨true, true, fun _ => 1, fun _ => (1/2, 1/2)⟩
    [[0], [1], [2], [3]] [1, 1, 0, 1]
    ⟨[("params.yaml", .yaml [("learning_rate", .scalar "0.1")])], [], []⟩
    [("learning_rate", .scalar "0.1")] (3/4) (3/4) 1 (1/2)
    rfl rfl rfl
    (by norm_num [accuracy_score, countMatches, List.map_cons])
    (by norm_num [precision_score, truePos, falsePos, binaryLabels, List.map_cons])
    (by norm_num [recall_score, truePos, falseNeg, binaryLabels, List.map_cons])
    (by norm_num [roc_auc_score, scoresOf, pairScore, List.map_cons, List.filterMap_cons,
      List.sum_cons])
    ⟨("learning_rate", .scalar "0.1"), by simp, "0.1", rfl⟩

end ModelEval
